import Mathlib

/-!
Verification development for the finance-briefer agent repository.

The definitions below are a shallow embedding of the orchestrator module
(`agents/orchestrator_agent.py`) and of the portfolio agent
(`agents/portfolio_agent.py`).  Python dictionaries holding portfolio
snapshots become a `Snapshot` structure; Python dicts used as accumulating
maps (region/sector allocation dicts) become insertion-ordered association
lists with a `bump` operation mirroring `d[k] = d.get(k, 0) + v`.
Numeric values (shares, prices, allocation percentages) are modelled as
exact rationals; Python raising `ZeroDivisionError` on float division by
zero is modelled explicitly with `Except`, since rational division in Lean
is total.  External collaborators (the language model, the vector store,
the market-data providers) are modelled as oracle parameters.
-/

namespace FinanceBriefer

/-- A portfolio holding, as produced by the portfolio agent's extraction
(symbol, shares, avg_price, sector, region).  An absent / falsy string
field in Python is modelled as the empty string. -/
structure Holding where
  symbol : String
  shares : ℚ
  avg_price : ℚ
  sector : String
  region : String
  deriving DecidableEq, Repr

/-- Value of a holding: `shares * avg_price`. -/
def holdingValue (h : Holding) : ℚ := h.shares * h.avg_price

/-- The filter criteria extracted from a query:
`filters.get("regions", [])`, `filters.get("sectors", [])`,
`filters.get("symbols", [])`.  An absent dimension is the empty list. -/
structure Filters where
  regions : List String
  sectors : List String
  symbols : List String
  deriving DecidableEq, Repr

/-- The empty filter set (`filters = {}`). -/
def Filters.empty : Filters := ⟨[], [], []⟩

/-- A portfolio snapshot dictionary with keys `symbols`, `holdings`,
`region_allocations`, `sector_allocations`, `total_value`.  Allocation
dicts are insertion-ordered association lists. -/
structure Snapshot where
  symbols : List String
  holdings : List Holding
  region_allocations : List (String × ℚ)
  sector_allocations : List (String × ℚ)
  total_value : ℚ
  deriving DecidableEq, Repr

/-- The freshly initialised `filtered_data` dictionary of
`_filter_portfolio_data` (empty lists / maps, total_value 0). -/
def Snapshot.empty : Snapshot := ⟨[], [], [], [], 0⟩

/-- Python dict accumulation
`if k not in d: d[k] = 0` followed by `d[k] += v`:
update the entry in place if the key is present, else append it. -/
def bump (m : List (String × ℚ)) (k : String) (v : ℚ) : List (String × ℚ) :=
  match m with
  | [] => [(k, v)]
  | (k', v') :: rest =>
      if k' = k then (k', v' + v) :: rest else (k', v') :: bump rest k v

/-- Sum of the values stored in an association-list map. -/
def sumVals (m : List (String × ℚ)) : ℚ := (m.map Prod.snd).sum

/-- One holding passes the filter loop of `_filter_portfolio_data`:
each nonempty filter dimension must list the holding's field
(`if symbols and holding["symbol"] not in symbols: continue`, etc.). -/
def matchesFilters (f : Filters) (h : Holding) : Bool :=
  (f.symbols.isEmpty || f.symbols.contains h.symbol) &&
  (f.regions.isEmpty || f.regions.contains h.region) &&
  (f.sectors.isEmpty || f.sectors.contains h.sector)

/-- The holdings that survive the filter loop, in order. -/
def filteredHoldings (pd : Snapshot) (f : Filters) : List Holding :=
  pd.holdings.filter (matchesFilters f)

/-- Total value recomputed over the filtered holdings:
`sum(h["shares"] * h["avg_price"] for h in filtered_data["holdings"])`. -/
def filteredTotal (pd : Snapshot) (f : Filters) : ℚ :=
  ((filteredHoldings pd f).map holdingValue).sum

/-- The allocation-recomputation loop of `_filter_portfolio_data`:
starting from empty maps, for each filtered holding add
`(value / total) * 100` to its region's and sector's entry. -/
def allocLoop (hs : List Holding) (total : ℚ) (pick : Holding → String) :
    List (String × ℚ) :=
  hs.foldl (fun m h => bump m (pick h) (holdingValue h / total * 100)) []

/-- The `filtered_data` dictionary as the body of `_filter_portfolio_data`
builds it when no division by zero occurs: filtered holdings and their
symbols, allocations recomputed against the filtered total. -/
def filterOutput (pd : Snapshot) (f : Filters) : Snapshot :=
  { symbols := (filteredHoldings pd f).map Holding.symbol
    holdings := filteredHoldings pd f
    region_allocations := allocLoop (filteredHoldings pd f) (filteredTotal pd f) Holding.region
    sector_allocations := allocLoop (filteredHoldings pd f) (filteredTotal pd f) Holding.sector
    total_value := filteredTotal pd f }

/-- The body of `_filter_portfolio_data` inside its `try`.  In Python every
division `value / total_value` raises `ZeroDivisionError` when the float
`total_value` is zero, and the allocation loop runs at least one division
exactly when the filtered holdings list is nonempty; the single upfront
test below is equivalent because all divisions share the denominator. -/
def filterTry (pd : Snapshot) (f : Filters) : Except Unit Snapshot :=
  if filteredHoldings pd f ≠ [] ∧ filteredTotal pd f = 0 then
    Except.error ()
  else
    Except.ok (filterOutput pd f)

/-- `_filter_portfolio_data`: on any exception in the body the
`except` clause returns the original `portfolio_data`. -/
def filterPortfolioData (pd : Snapshot) (f : Filters) : Snapshot :=
  match filterTry pd f with
  | .ok d => d
  | .error _ => pd

/-! ## Portfolio agent (agents/portfolio_agent.py, snapshot construction) -/

/-- De-duplication of extracted holdings: keep the first holding per symbol,
dropping holdings with a falsy (empty) symbol
(`if symbol and symbol not in seen_symbols`). -/
def dedupHoldings (hs : List Holding) : List Holding :=
  (hs.foldl
    (fun (acc : List Holding × List String) h =>
      if h.symbol != "" && !acc.2.contains h.symbol then
        (acc.1 ++ [h], acc.2 ++ [h.symbol])
      else acc)
    ([], [])).1

/-- The agent's total portfolio value: cash plus the value of every holding
(`total_value = cash; for holding: total_value += shares * avg_price`). -/
def agentTotal (hs : List Holding) (cash : ℚ) : ℚ :=
  cash + (hs.map holdingValue).sum

/-- The agent's symbol list: symbols of holdings with a truthy symbol. -/
def agentSymbols (hs : List Holding) : List String :=
  (hs.filter (fun h => h.symbol != "")).map Holding.symbol

/-- The agent's `region_holdings` grouping: value summed per region over
holdings whose symbol and region are truthy. -/
def agentRegionHoldings (hs : List Holding) : List (String × ℚ) :=
  hs.foldl
    (fun m h =>
      if h.symbol != "" && h.region != "" then bump m h.region (holdingValue h) else m)
    []

/-- The agent's `sector_holdings` grouping: value summed per sector over
holdings whose symbol and sector are truthy. -/
def agentSectorHoldings (hs : List Holding) : List (String × ℚ) :=
  hs.foldl
    (fun m h =>
      if h.symbol != "" && h.sector != "" then bump m h.sector (holdingValue h) else m)
    []

/-- The dict comprehension `{k: value / total_value * 100 for ...}`. -/
def allocPct (m : List (String × ℚ)) (total : ℚ) : List (String × ℚ) :=
  m.map (fun p => (p.1, p.2 / total * 100))

/-- The cash balance the agent always inserts when holdings were extracted
(`"cash": 50000.0,  # Default value`). -/
def agentCash : ℚ := 50000

/-- The agent's snapshot construction from the (de-duplicated) holdings and
cash.  The two allocation dict comprehensions divide by `total_value` once
per entry; with the float `total_value` equal to zero the first division
raises `ZeroDivisionError`, which the upfront test models (a comprehension
over an empty grouping performs no division). -/
def agentSnapshotTry (hs : List Holding) (cash : ℚ) : Except Unit Snapshot :=
  if agentTotal hs cash = 0 ∧
      (agentRegionHoldings hs ≠ [] ∨ agentSectorHoldings hs ≠ []) then
    Except.error ()
  else
    Except.ok
      { symbols := agentSymbols hs
        holdings := hs
        region_allocations := allocPct (agentRegionHoldings hs) (agentTotal hs cash)
        sector_allocations := allocPct (agentSectorHoldings hs) (agentTotal hs cash)
        total_value := agentTotal hs cash }

/-- The `{success, data, error}` envelope returned by
`PortfolioAgent.process`. -/
structure AgentEnvelope where
  success : Bool
  error : Option String
  data : Snapshot
  deriving DecidableEq, Repr

/-- `PortfolioAgent.process`, as a function of the holdings extracted from
the vector-store results (the store itself is an external collaborator).
No extracted holdings: the early return with an empty snapshot and
success true.  Otherwise the snapshot is built over the de-duplicated
holdings with the fixed 50000 cash; an exception inside the body is caught
and returned as a failure envelope with empty data. -/
def agentProcess (extracted : List Holding) : AgentEnvelope :=
  if extracted.isEmpty then ⟨true, none, Snapshot.empty⟩
  else
    match agentSnapshotTry (dedupHoldings extracted) agentCash with
    | .ok s => ⟨true, none, s⟩
    | .error _ => ⟨false, some "float division by zero", Snapshot.empty⟩

/-- `SmartOrchestrator._get_portfolio_data` applied to the agent's
envelope: a failure envelope becomes the error message
(`result.get("error", "Unknown error")`); a success whose data has no
symbols becomes the error "No portfolio data available"; otherwise the
data passes through. -/
def getPortfolioData (env : AgentEnvelope) : Except String Snapshot :=
  if !env.success then Except.error (env.error.getD "Unknown error")
  else if env.data.symbols.isEmpty then Except.error "No portfolio data available"
  else Except.ok env.data

/-! ## Query understanding (`_understand_query`) -/

/-- The analysis dictionary `{intent, tools, filters, time_period, metrics}`
returned from query understanding. -/
structure Analysis where
  intent : String
  tools : List String
  filters : Filters
  time_period : String
  metrics : List String
  deriving DecidableEq, Repr

/-- Python `str.lower` restricted to the ASCII queries at hand. -/
def lowerStr (s : String) : String := String.mk (s.toList.map Char.toLower)

/-- Contiguous-substring search over character lists. -/
def listInfix (needle : List Char) : List Char → Bool
  | [] => needle.isEmpty
  | c :: rest => needle.isPrefixOf (c :: rest) || listInfix needle rest

/-- Python substring test `needle in hay`. -/
def strContains (hay needle : String) : Bool :=
  listInfix needle.toList hay.toList

/-- Python `any(word in query_lower for word in words)`. -/
def containsAny (q : String) (words : List String) : Bool :=
  words.any (fun w => strContains q w)

/-- The deterministic keyword fallback of `_understand_query`, reached when
the language-model response fails to parse as JSON. -/
def fallbackClassify (queryText : String) : Analysis :=
  let q := lowerStr queryText
  let it : String × List String :=
    if containsAny q ["risk", "exposure", "concentration"] then
      ("risk_exposure", ["portfolio", "risk", "stock"])
    else if containsAny q ["earnings", "surprise", "report"] then
      ("earnings_surprise", ["earnings", "stock"])
    else if containsAny q ["news", "headline", "update"] then
      ("news", ["news"])
    else if containsAny q ["stock", "price", "market"] then
      ("stock", ["stock"])
    else
      ("portfolio", ["portfolio"])
  let regions := if strContains q "asia" then ["Asia"] else []
  let sectors := if strContains q "tech" then ["Technology"] else []
  { intent := it.1
    tools := it.2
    filters := ⟨regions, sectors, []⟩
    time_period := "latest"
    metrics := ["price", "change"] }

/-- The fixed default analysis returned when any error is raised inside
`_understand_query`. -/
def defaultAnalysis : Analysis :=
  { intent := "portfolio"
    tools := ["portfolio", "stock"]
    filters := Filters.empty
    time_period := "latest"
    metrics := ["price", "change"] }

/-- `_understand_query`, with the language-model call as an oracle:
`Except.error` models a raised error anywhere in the body (handled by the
outer `except`), `Except.ok none` a response whose content fails to parse
as JSON (handled by the keyword fallback), and `Except.ok (some a)` a
successfully parsed analysis. -/
def understandQuery (llm : Except Unit (Option Analysis)) (queryText : String) : Analysis :=
  match llm with
  | .error _ => defaultAnalysis
  | .ok none => fallbackClassify queryText
  | .ok (some a) => a

/-! ## Risk estimator (`_calculate_portfolio_risk`) -/

/-- Daily simple returns over consecutive closes:
`(close[i] - close[i-1]) / close[i-1]` for i = 1 .. n-1. -/
def dailyReturns : List ℚ → List ℚ
  | c0 :: c1 :: rest => (c1 - c0) / c0 :: dailyReturns (c1 :: rest)
  | _ => []

/-- Arithmetic mean of a list of rationals. -/
def listMean (rs : List ℚ) : ℚ := rs.sum / rs.length

/-- Population variance, as computed by `np.std` squared (ddof = 0). -/
def listVariance (rs : List ℚ) : ℚ :=
  ((rs.map (fun r => (r - listMean rs) ^ 2)).sum) / rs.length

/-- The per-symbol high-risk test of `_calculate_portfolio_risk` on the
historical closes.  The source computes
`np.std(returns) * np.sqrt(252) > 0.3`; since both sides are nonnegative
this holds exactly when `variance * 252 > 0.3 ^ 2 = 9 / 100`, which avoids
the irrational square roots.  A symbol with fewer than two closes never
reaches the comparison (`if len(historical_data) > 1` and `if returns`),
and a zero close among the `prev_close` values (all but the last close)
raises `ZeroDivisionError`, caught by the per-symbol handler that skips
the symbol. -/
def highRisk (closes : List ℚ) : Bool :=
  decide (1 < closes.length) &&
  closes.dropLast.all (fun c => c != 0) &&
  decide (listVariance (dailyReturns closes) * 252 > 9 / 100)

/-- A per-symbol stock payload as stored by `_get_stock_data`:
the historical closes when the dict has a "historical_data" key. -/
structure StockPayload where
  historical : Option (List ℚ)
  deriving DecidableEq, Repr

/-- The `high_risk_stocks` accumulation of `_calculate_portfolio_risk`:
appends each symbol whose payload carries historical data and passes the
high-risk test. -/
def highRiskStocks (stockData : List (String × StockPayload)) : List String :=
  stockData.foldl
    (fun acc p =>
      match p.2.historical with
      | some closes => if highRisk closes then acc ++ [p.1] else acc
      | none => acc)
    []

/-- The risk-metrics dictionary of `_calculate_portfolio_risk`:
concentrations copied from the portfolio snapshot, scalar volatility left
at 0.0, plus the high-risk symbol list. -/
structure RiskMetrics where
  sector_concentration : List (String × ℚ)
  region_concentration : List (String × ℚ)
  total_value : ℚ
  volatility : ℚ
  high_risk_stocks : List String
  deriving DecidableEq, Repr

/-- `_calculate_portfolio_risk` over a snapshot and fetched stock data. -/
def calculatePortfolioRisk (pd : Snapshot) (stock : List (String × StockPayload)) :
    RiskMetrics :=
  { sector_concentration := pd.sector_allocations
    region_concentration := pd.region_allocations
    total_value := pd.total_value
    volatility := 0
    high_risk_stocks := highRiskStocks stock }

/-! ## Per-symbol data fetching (`_get_stock_data` etc.) -/

/-- The uniform `{success, data, error}` envelope returned by every
provider adapter. -/
structure ToolResult (α : Type) where
  success : Bool
  data : Option α
  error : Option String
  deriving DecidableEq, Repr

/-- Python dict assignment `d[k] = v`: replace in place or append. -/
def setKey {α : Type} (m : List (String × α)) (k : String) (v : α) :
    List (String × α) :=
  match m with
  | [] => [(k, v)]
  | (k', v') :: rest =>
      if k' = k then (k, v) :: rest else (k', v') :: setKey rest k v

/-- `_get_stock_data`: per-symbol sequential fetch; an unsuccessful
envelope or a falsy data field (`none` models both a missing and an empty
data dict) is skipped, everything else is stored under the symbol. -/
def getStockData (fetch : String → ToolResult StockPayload) (symbols : List String) :
    List (String × StockPayload) :=
  symbols.foldl
    (fun results s =>
      match fetch s with
      | ⟨true, some d, _⟩ => setKey results s d
      | _ => results)
    []

/-- `_get_earnings_data`: skips unsuccessful envelopes, stores
`result.data` (possibly None) for the rest.  The payload is opaque here. -/
def getEarningsData (fetch : String → ToolResult String) (symbols : List String) :
    List (String × Option String) :=
  symbols.foldl
    (fun results s =>
      let r := fetch s
      if r.success then setKey results s r.data else results)
    []

/-- `_get_news`: skips unsuccessful envelopes, stores
`result.get("data", {})` for the rest. -/
def getNews (fetch : String → ToolResult String) (symbols : List String) :
    List (String × Option String) :=
  symbols.foldl
    (fun results s =>
      let r := fetch s
      if r.success then setKey results s r.data else results)
    []

/-- `_get_metadata`: skips unsuccessful envelopes, stores
`result.get("data", {})` for the rest. -/
def getMetadata (fetch : String → ToolResult String) (symbols : List String) :
    List (String × Option String) :=
  symbols.foldl
    (fun results s =>
      let r := fetch s
      if r.success then setKey results s r.data else results)
    []

/-! ## SmartOrchestrator.process -/

/-- The `data` dictionary assembled by `process`: portfolio views, intent
and filters always present; stock, earnings, news and risk only when the
corresponding tool was requested. -/
structure ProcessData where
  portfolio : Snapshot
  original_portfolio : Snapshot
  intent : String
  filters : Filters
  stock : Option (List (String × StockPayload))
  earnings : Option (List (String × Option String))
  news : Option (List (String × Option String))
  risk : Option RiskMetrics
  deriving DecidableEq, Repr

/-- The dictionary returned by `process`.  The two early error returns
carry only an "error" key, so `success`, `data` and `final_result` are
`none` there; the happy path and the catch-all both set `success` and
`final_result`. -/
structure ProcessResult where
  success : Option Bool
  error : Option String
  data : Option ProcessData
  final_result : Option String
  deriving DecidableEq, Repr

/-- The external collaborators `process` consults, as oracles: the
query-understanding language-model call, the portfolio agent's envelope,
the three per-symbol provider adapters, and the analysis language-model
call of `_analyze_with_llm` (total, because that method catches its own
errors and falls back to an apology string). -/
structure Oracles where
  llm : Except Unit (Option Analysis)
  agent : AgentEnvelope
  stockFetch : String → ToolResult StockPayload
  earnFetch : String → ToolResult String
  newsFetch : String → ToolResult String
  analyze : ProcessData → String

/-- The members of the `Intent` enum; `Intent(s)` for any other string
raises `ValueError`. -/
def validIntents : List String :=
  ["risk_exposure", "earnings_surprise", "portfolio", "news", "metadata", "stock", "unknown"]

/-- The catch-all apology of `SmartOrchestrator.process`. -/
def processApology : String :=
  "I apologize, but I encountered an error while processing your query."

/-- `_format_results` returns the empty string on every path. -/
def formatResults (_intent : String) (_d : ProcessData) : String := ""

/-- The symbol selection of `process`:
`query_analysis["filters"].get("symbols") or filtered_portfolio.get("symbols", [])`
(an empty or absent symbols filter is falsy, so the filtered snapshot's
symbols are used). -/
def chosenSymbols (qa : Analysis) (pd : Snapshot) : List String :=
  if qa.filters.symbols.isEmpty then (filterPortfolioData pd qa.filters).symbols
  else qa.filters.symbols

/-- `SmartOrchestrator.process`: understand the query, fetch and filter the
portfolio, bail out with a bare error dict when the portfolio fetch fails
or no symbols remain, fetch the requested tools per symbol, then hand the
data to the analysis call.  An invalid intent string makes
`Intent(query_analysis.get("intent", "unknown"))` raise `ValueError`,
which the catch-all turns into a failure with the apology text. -/
def SmartOrchestrator.process (o : Oracles) (queryText : String) : ProcessResult :=
  let qa := understandQuery o.llm queryText
  match getPortfolioData o.agent with
  | .error e => { success := none, error := some e, data := none, final_result := none }
  | .ok pd =>
    let filtered := filterPortfolioData pd qa.filters
    let symbols := chosenSymbols qa pd
    if symbols.isEmpty then
      { success := none, error := some "No symbols found to process"
        data := none, final_result := none }
    else
      let stock :=
        if qa.tools.contains "stock" then some (getStockData o.stockFetch symbols) else none
      let earnings :=
        if qa.tools.contains "earnings" then some (getEarningsData o.earnFetch symbols)
        else none
      let news :=
        if qa.tools.contains "news" then some (getNews o.newsFetch symbols) else none
      let risk :=
        if qa.tools.contains "risk" then
          some (calculatePortfolioRisk filtered (stock.getD []))
        else none
      let d : ProcessData :=
        { portfolio := filtered, original_portfolio := pd, intent := qa.intent
          filters := qa.filters, stock := stock, earnings := earnings
          news := news, risk := risk }
      if validIntents.contains qa.intent then
        { success := some true, error := none, data := some d
          final_result := some (formatResults qa.intent d ++ o.analyze d) }
      else
        { success := some false
          error := some (s!"{qa.intent} is not a valid Intent")
          data := none, final_result := some processApology }

/-- The orchestrator state touched by `__init__`:
`self._cache = \x7b\x7d` and `self._cache_ttl = 3600`.  The entry type of
the cache dict is immaterial because nothing is ever stored in it. -/
structure CacheState where
  cache : List (String × ProcessResult)
  ttl : ℕ
  deriving DecidableEq, Repr

/-- The cache as `__init__` leaves it: empty, with the one-hour TTL. -/
def initCacheState : CacheState := ⟨[], 3600⟩

/-- `process` with the instance state made explicit.  The body of the
Python method never mentions `self._cache` or `self._cache_ttl`, so the
translation neither reads the state (the result is computed from the
oracles and the query alone) nor writes it (the state passes through
unchanged). -/
def processWithState (st : CacheState) (o : Oracles) (queryText : String) :
    ProcessResult × CacheState :=
  (SmartOrchestrator.process o queryText, st)

/-! ## Helper lemmas -/

@[simp]
theorem sumVals_nil : sumVals [] = 0 := rfl

@[simp]
theorem sumVals_cons (p : String × ℚ) (m : List (String × ℚ)) :
    sumVals (p :: m) = p.2 + sumVals m := rfl

theorem sumVals_bump (m : List (String × ℚ)) (k : String) (v : ℚ) :
    sumVals (bump m k v) = sumVals m + v := by
  induction m with
  | nil => simp [bump]
  | cons p rest ih =>
      rcases p with ⟨k', v'⟩
      by_cases h : k' = k
      · simp [bump, h]; ring
      · simp [bump, h, ih]; ring

theorem sumVals_foldl_bump (pick : Holding → String) (f : Holding → ℚ) :
    ∀ (hs : List Holding) (init : List (String × ℚ)),
      sumVals (hs.foldl (fun m h => bump m (pick h) (f h)) init) =
        sumVals init + (hs.map f).sum := by
  intro hs
  induction hs with
  | nil => intro init; simp
  | cons h t ih =>
      intro init
      simp only [List.foldl_cons, List.map_cons, List.sum_cons]
      rw [ih, sumVals_bump]
      ring

theorem sumVals_foldl_bumpIf (p : Holding → Bool) (pick : Holding → String)
    (f : Holding → ℚ) :
    ∀ (hs : List Holding) (init : List (String × ℚ)),
      sumVals (hs.foldl (fun m h => if p h then bump m (pick h) (f h) else m) init) =
        sumVals init + ((hs.filter p).map f).sum := by
  intro hs
  induction hs with
  | nil => intro init; simp
  | cons h t ih =>
      intro init
      by_cases hp : p h
      · simp only [List.foldl_cons, List.filter_cons, hp, if_pos, List.map_cons,
          List.sum_cons]
        rw [ih, sumVals_bump]
        ring
      · simp only [List.foldl_cons, List.filter_cons, hp, if_neg, List.map_cons]
        simp only [Bool.false_eq_true, if_false]
        rw [ih]

theorem sum_map_div_mul {α : Type} (f : α → ℚ) (t : ℚ) :
    ∀ l : List α, (l.map (fun x => f x / t * 100)).sum = (l.map f).sum / t * 100 := by
  intro l
  induction l with
  | nil => simp
  | cons x xs ih =>
      simp only [List.map_cons, List.sum_cons, ih]
      ring

theorem sumVals_allocLoop (hs : List Holding) (total : ℚ) (pick : Holding → String) :
    sumVals (allocLoop hs total pick) = (hs.map holdingValue).sum / total * 100 := by
  unfold allocLoop
  rw [sumVals_foldl_bump pick (fun h => holdingValue h / total * 100) hs []]
  simp [sum_map_div_mul holdingValue total hs]

theorem sumVals_allocPct (m : List (String × ℚ)) (t : ℚ) :
    sumVals (allocPct m t) = sumVals m / t * 100 := by
  unfold allocPct sumVals
  induction m with
  | nil => simp
  | cons p rest ih =>
      simp only [List.map_cons, List.sum_cons] at *
      rw [ih]
      ring

theorem sumVals_agentRegionHoldings (hs : List Holding) :
    sumVals (agentRegionHoldings hs) =
      ((hs.filter (fun h => h.symbol != "" && h.region != "")).map holdingValue).sum := by
  unfold agentRegionHoldings
  rw [sumVals_foldl_bumpIf (fun h => h.symbol != "" && h.region != "")
    Holding.region holdingValue hs []]
  simp

theorem sumVals_agentSectorHoldings (hs : List Holding) :
    sumVals (agentSectorHoldings hs) =
      ((hs.filter (fun h => h.symbol != "" && h.sector != "")).map holdingValue).sum := by
  unfold agentSectorHoldings
  rw [sumVals_foldl_bumpIf (fun h => h.symbol != "" && h.sector != "")
    Holding.sector holdingValue hs []]
  simp

@[simp]
theorem matchesFilters_empty (h : Holding) : matchesFilters Filters.empty h = true := rfl

theorem filteredHoldings_empty_filters (pd : Snapshot) :
    filteredHoldings pd Filters.empty = pd.holdings := by
  unfold filteredHoldings
  exact List.filter_eq_self.mpr (fun a _ => matchesFilters_empty a)

theorem filterTry_ok (pd : Snapshot) (f : Filters)
    (h : filteredHoldings pd f = [] ∨ filteredTotal pd f ≠ 0) :
    filterTry pd f = Except.ok (filterOutput pd f) := by
  unfold filterTry
  rw [if_neg]
  rintro ⟨h1, h2⟩
  rcases h with h | h
  exacts [h1 h, h h2]

theorem filterTry_error (pd : Snapshot) (f : Filters)
    (h1 : filteredHoldings pd f ≠ []) (h2 : filteredTotal pd f = 0) :
    filterTry pd f = Except.error () := by
  unfold filterTry
  rw [if_pos ⟨h1, h2⟩]

/-! ## Concrete fixtures and their evaluations -/

/-- A zero-value holding (zero shares). -/
def holdingA : Holding := ⟨"A", 0, 10, "Technology", "US"⟩

/-- A holding worth 10. -/
def holdingB : Holding := ⟨"B", 1, 10, "Technology", "US"⟩

/-- A snapshot holding `holdingA` and `holdingB` with nonempty allocation
maps and a nonzero stored total value. -/
def snapAB : Snapshot :=
  ⟨["A", "B"], [holdingA, holdingB], [("US", 100)], [("Technology", 100)], 50020⟩

/-- A filter set selecting only the zero-value holding. -/
def filtersA : Filters := ⟨[], [], ["A"]⟩

/-- A plain one-share holding. -/
def holdingAAPL : Holding := ⟨"AAPL", 1, 100, "Technology", "US"⟩

/-- The snapshot the portfolio agent produces for the single holding
`holdingAAPL`. -/
def snapAgent : Snapshot := (agentProcess [holdingAAPL]).data

/-- The value of `snapAgent`, written out (cash 50000 in the total). -/
def snapAgentVal : Snapshot :=
  ⟨["AAPL"], [holdingAAPL], [("US", 100 / 501)], [("Technology", 100 / 501)], 50100⟩

theorem filteredHoldings_snapAB : filteredHoldings snapAB filtersA = [holdingA] := by
  decide

theorem filteredTotal_snapAB : filteredTotal snapAB filtersA = 0 := by
  unfold filteredTotal
  rw [filteredHoldings_snapAB]
  simp [holdingValue, holdingA]

theorem filterTry_snapAB : filterTry snapAB filtersA = Except.error () :=
  filterTry_error snapAB filtersA (by rw [filteredHoldings_snapAB]; simp)
    filteredTotal_snapAB

theorem dedup_AAPL : dedupHoldings [holdingAAPL] = [holdingAAPL] := by decide

theorem agentTotal_AAPL : agentTotal [holdingAAPL] agentCash = 50100 := by
  norm_num [agentTotal, holdingValue, holdingAAPL, agentCash]

theorem agentRegion_AAPL : agentRegionHoldings [holdingAAPL] = [("US", (100 : ℚ))] := by
  simp [agentRegionHoldings, holdingAAPL, bump, holdingValue]

theorem agentSector_AAPL :
    agentSectorHoldings [holdingAAPL] = [("Technology", (100 : ℚ))] := by
  simp [agentSectorHoldings, holdingAAPL, bump, holdingValue]

theorem agentSymbols_AAPL : agentSymbols [holdingAAPL] = ["AAPL"] := by decide

theorem agentSnapshotTry_AAPL :
    agentSnapshotTry [holdingAAPL] agentCash = Except.ok snapAgentVal := by
  unfold agentSnapshotTry
  rw [agentTotal_AAPL, agentRegion_AAPL, agentSector_AAPL, agentSymbols_AAPL,
    if_neg (by norm_num)]
  unfold snapAgentVal allocPct
  norm_num

theorem snapAgent_eq : snapAgent = snapAgentVal := by
  unfold snapAgent agentProcess
  simp only [List.isEmpty_cons, Bool.false_eq_true, if_false, dedup_AAPL,
    agentSnapshotTry_AAPL]

theorem agentSuccess_AAPL : (agentProcess [holdingAAPL]).success = true := by
  unfold agentProcess
  simp only [List.isEmpty_cons, Bool.false_eq_true, if_false, dedup_AAPL,
    agentSnapshotTry_AAPL]

theorem filteredHoldings_snapAgent_empty :
    filteredHoldings snapAgent Filters.empty = [holdingAAPL] := by
  rw [snapAgent_eq, filteredHoldings_empty_filters]
  rfl

theorem filteredTotal_snapAgent_empty : filteredTotal snapAgent Filters.empty = 100 := by
  unfold filteredTotal
  rw [filteredHoldings_snapAgent_empty]
  norm_num [holdingValue, holdingAAPL]

theorem filterPortfolioData_snapAgent_empty :
    filterPortfolioData snapAgent Filters.empty =
      ⟨["AAPL"], [holdingAAPL], [("US", (100 : ℚ))], [("Technology", (100 : ℚ))], 100⟩ := by
  unfold filterPortfolioData
  rw [filterTry_ok _ _ (Or.inr (by rw [filteredTotal_snapAgent_empty]; norm_num))]
  unfold filterOutput
  rw [filteredHoldings_snapAgent_empty, filteredTotal_snapAgent_empty]
  norm_num [allocLoop, bump, holdingValue, holdingAAPL]

/-! ## Claims -/

/-- C1: the claim says that whenever the filtered holdings have total value
zero the filter returns empty allocation maps with total_value = 0.  That
is false when the filtered holdings are nonempty with zero total value:
the allocation loop raises `ZeroDivisionError` and the handler returns the
original snapshot.  Here: filtering `snapAB` by the zero-value symbol "A"
leaves total value 0 yet the result is `snapAB` itself, whose total value
is 50020 and whose allocation maps are nonempty. -/
theorem C1_counterexample :
    filteredTotal snapAB filtersA = 0 ∧
    filteredHoldings snapAB filtersA ≠ [] ∧
    (filterPortfolioData snapAB filtersA).total_value ≠ 0 ∧
    (filterPortfolioData snapAB filtersA).sector_allocations ≠ [] := by
  have hfp : filterPortfolioData snapAB filtersA = snapAB := by
    unfold filterPortfolioData
    rw [filterTry_snapAB]
  refine ⟨filteredTotal_snapAB, ?_, ?_, ?_⟩
  · rw [filteredHoldings_snapAB]
    simp
  · rw [hfp]
    norm_num [snapAB]
  · rw [hfp]
    simp [snapAB]

/-- C1 (amended): if the filtered holdings list is empty — in particular
when filtering by a symbol absent from the portfolio — the filter returns
the empty snapshot (empty holdings, empty allocation maps, total_value 0)
without raising; if the filtered holdings are nonempty with total value
zero, the division error is caught and the original unfiltered snapshot is
returned. -/
theorem C1_filter_zero_total (pd : Snapshot) (f : Filters) (sym : String) :
    (filteredHoldings pd f = [] → filterPortfolioData pd f = Snapshot.empty) ∧
    (filteredHoldings pd f ≠ [] → filteredTotal pd f = 0 →
      filterPortfolioData pd f = pd) ∧
    (sym ∉ pd.holdings.map Holding.symbol →
      filterPortfolioData pd ⟨[], [], [sym]⟩ = Snapshot.empty) := by
  have part1 : ∀ f' : Filters, filteredHoldings pd f' = [] →
      filterPortfolioData pd f' = Snapshot.empty := by
    intro f' h
    unfold filterPortfolioData
    rw [filterTry_ok pd f' (Or.inl h)]
    unfold filterOutput filteredTotal
    rw [h]
    rfl
  refine ⟨part1 f, ?_, ?_⟩
  · intro h1 h2
    unfold filterPortfolioData
    rw [filterTry_error pd f h1 h2]
  · intro hsym
    refine part1 ⟨[], [], [sym]⟩ ?_
    unfold filteredHoldings
    rw [List.filter_eq_nil_iff]
    intro a ha
    have hne : a.symbol ≠ sym := by
      intro he
      exact hsym (he ▸ List.mem_map_of_mem Holding.symbol ha)
    simp [matchesFilters, hne]

/-- C1 witness: the amended behaviour at the concrete snapshot `snapAB`
(zero-total nonempty filter result returns the original; an absent symbol
returns the empty snapshot). -/
theorem C1_witness :
    filterPortfolioData snapAB filtersA = snapAB ∧
    filterPortfolioData snapAB ⟨[], [], ["ZZZ"]⟩ = Snapshot.empty :=
  ⟨(C1_filter_zero_total snapAB filtersA "ZZZ").2.1
      (by rw [filteredHoldings_snapAB]; simp) filteredTotal_snapAB,
   (C1_filter_zero_total snapAB filtersA "ZZZ").2.2 (by decide)⟩

/-- C10: any exception raised inside the body of `_filter_portfolio_data`
is caught and the original, unfiltered snapshot is returned. -/
theorem C10_exception_returns_original (pd : Snapshot) (f : Filters)
    (herr : filterTry pd f = Except.error ()) :
    filterPortfolioData pd f = pd := by
  unfold filterPortfolioData
  rw [herr]

/-- C10 witness: the zero-total nonempty filter result on `snapAB` raises
inside the body, and the caller receives the full original snapshot. -/
theorem C10_witness :
    filterTry snapAB filtersA = Except.error () ∧
    filterPortfolioData snapAB filtersA = snapAB :=
  ⟨filterTry_snapAB, C10_exception_returns_original snapAB filtersA filterTry_snapAB⟩

/-- C2: the claim says that filtering with an empty filter set returns the
input snapshot unchanged.  False: the filter recomputes total value from
the holdings alone while the agent's snapshot total includes the 50000
cash, so on `snapAgent` the output total is 100 against a stored 50100,
and the allocation maps change accordingly. -/
theorem C2_counterexample :
    filterPortfolioData snapAgent Filters.empty ≠ snapAgent ∧
    (filterPortfolioData snapAgent Filters.empty).total_value = 100 ∧
    snapAgent.total_value = 50100 := by
  rw [filterPortfolioData_snapAgent_empty, snapAgent_eq]
  refine ⟨?_, rfl, rfl⟩
  intro he
  have h := congrArg Snapshot.total_value he
  norm_num [snapAgentVal] at h

/-- C2 (amended): filtering with an empty filter set keeps every holding
(same holdings list, symbols recomputed as their symbols in order) but
recomputes the total value as the sum of the holding values — cash
excluded — and recomputes both allocation maps against that total; the
output therefore equals the input snapshot only when the input's stored
derived fields already equal these recomputed ones.  (The hypothesis rules
out the nonempty zero-total case, where the body raises and the original
snapshot is returned.) -/
theorem C2_empty_filters_recompute (pd : Snapshot)
    (h : pd.holdings = [] ∨ (pd.holdings.map holdingValue).sum ≠ 0) :
    filterPortfolioData pd Filters.empty =
      { symbols := pd.holdings.map Holding.symbol
        holdings := pd.holdings
        region_allocations :=
          allocLoop pd.holdings ((pd.holdings.map holdingValue).sum) Holding.region
        sector_allocations :=
          allocLoop pd.holdings ((pd.holdings.map holdingValue).sum) Holding.sector
        total_value := (pd.holdings.map holdingValue).sum } := by
  have hh := filteredHoldings_empty_filters pd
  have htot : filteredTotal pd Filters.empty = (pd.holdings.map holdingValue).sum := by
    unfold filteredTotal
    rw [hh]
  have hside : filteredHoldings pd Filters.empty = [] ∨
      filteredTotal pd Filters.empty ≠ 0 := by
    rcases h with h | h
    · exact Or.inl (hh.trans h)
    · exact Or.inr (by rw [htot]; exact h)
  unfold filterPortfolioData
  rw [filterTry_ok pd Filters.empty hside]
  unfold filterOutput
  rw [hh, htot]

/-- C2 witness: the recomputation at the agent snapshot `snapAgent`. -/
theorem C2_witness :
    filterPortfolioData snapAgent Filters.empty =
      { symbols := snapAgent.holdings.map Holding.symbol
        holdings := snapAgent.holdings
        region_allocations :=
          allocLoop snapAgent.holdings ((snapAgent.holdings.map holdingValue).sum)
            Holding.region
        sector_allocations :=
          allocLoop snapAgent.holdings ((snapAgent.holdings.map holdingValue).sum)
            Holding.sector
        total_value := (snapAgent.holdings.map holdingValue).sum } :=
  C2_empty_filters_recompute snapAgent
    (Or.inr (by rw [snapAgent_eq]; norm_num [snapAgentVal, holdingValue, holdingAAPL]))

/-- C3: the claim says allocation percentages sum to 100 whenever total
value is positive, for both the orchestrator recomputation and the
portfolio agent.  False for the agent: its total includes the fixed 50000
cash while the allocations cover only holding values, so for the single
100-dollar holding the sector allocations sum to 100/501, not 100, with a
positive total of 50100. -/
theorem C3_counterexample :
    (agentProcess [holdingAAPL]).success = true ∧
    snapAgent.total_value = 50100 ∧
    sumVals snapAgent.sector_allocations = 100 / 501 ∧
    sumVals snapAgent.sector_allocations ≠ 100 ∧
    sumVals snapAgent.region_allocations ≠ 100 := by
  rw [snapAgent_eq]
  refine ⟨agentSuccess_AAPL, rfl, ?_, ?_, ?_⟩ <;> norm_num [snapAgentVal, sumVals]

/-- C3 (amended): for the orchestrator's recomputation over filtered
holdings, region and sector allocation percentages each sum to exactly 100
whenever the filtered total value is nonzero, and both maps are empty
(with total 0) when no holding passes the filter; for the portfolio
agent's snapshot construction, the allocations sum to
(labelled non-cash value) / (total including cash) × 100 per dimension,
which is 100 only when cash is zero and every holding is labelled. -/
theorem C3_allocation_sums (pd : Snapshot) (f : Filters) (hs : List Holding) (cash : ℚ) :
    (filteredTotal pd f ≠ 0 →
      sumVals (filterPortfolioData pd f).region_allocations = 100 ∧
      sumVals (filterPortfolioData pd f).sector_allocations = 100) ∧
    (filteredHoldings pd f = [] →
      (filterPortfolioData pd f).region_allocations = [] ∧
      (filterPortfolioData pd f).sector_allocations = [] ∧
      (filterPortfolioData pd f).total_value = 0) ∧
    (agentTotal hs cash ≠ 0 →
      agentSnapshotTry hs cash = Except.ok
        { symbols := agentSymbols hs
          holdings := hs
          region_allocations := allocPct (agentRegionHoldings hs) (agentTotal hs cash)
          sector_allocations := allocPct (agentSectorHoldings hs) (agentTotal hs cash)
          total_value := agentTotal hs cash } ∧
      sumVals (allocPct (agentRegionHoldings hs) (agentTotal hs cash)) =
        ((hs.filter (fun h => h.symbol != "" && h.region != "")).map holdingValue).sum
          / agentTotal hs cash * 100 ∧
      sumVals (allocPct (agentSectorHoldings hs) (agentTotal hs cash)) =
        ((hs.filter (fun h => h.symbol != "" && h.sector != "")).map holdingValue).sum
          / agentTotal hs cash * 100) := by
  refine ⟨?_, ?_, ?_⟩
  · intro htot
    unfold filterPortfolioData
    rw [filterTry_ok pd f (Or.inr htot)]
    unfold filterOutput
    constructor
    · rw [sumVals_allocLoop]
      have h : ((filteredHoldings pd f).map holdingValue).sum = filteredTotal pd f := rfl
      rw [h, div_self htot, one_mul]
    · rw [sumVals_allocLoop]
      have h : ((filteredHoldings pd f).map holdingValue).sum = filteredTotal pd f := rfl
      rw [h, div_self htot, one_mul]
  · intro h
    unfold filterPortfolioData
    rw [filterTry_ok pd f (Or.inl h)]
    unfold filterOutput filteredTotal
    rw [h]
    exact ⟨rfl, rfl, rfl⟩
  · intro hag
    refine ⟨?_, ?_, ?_⟩
    · unfold agentSnapshotTry
      rw [if_neg (fun hc => hag hc.1)]
    · rw [sumVals_allocPct, sumVals_agentRegionHoldings]
    · rw [sumVals_allocPct, sumVals_agentSectorHoldings]

/-- C3 witness: the filter recomputation sums to 100 on the agent snapshot
with empty filters, and the agent's sector allocations for the single
100-dollar holding sum to value/total × 100. -/
theorem C3_witness :
    sumVals (filterPortfolioData snapAgent Filters.empty).sector_allocations = 100 ∧
    sumVals (allocPct (agentSectorHoldings [holdingAAPL])
        (agentTotal [holdingAAPL] agentCash)) =
      (([holdingAAPL].filter (fun h => h.symbol != "" && h.sector != "")).map
        holdingValue).sum / agentTotal [holdingAAPL] agentCash * 100 :=
  ⟨((C3_allocation_sums snapAgent Filters.empty [holdingAAPL] agentCash).1
      (by rw [filteredTotal_snapAgent_empty]; norm_num)).2,
   ((C3_allocation_sums snapAgent Filters.empty [holdingAAPL] agentCash).2.2
      (by rw [agentTotal_AAPL]; norm_num)).2.2⟩

/-- C4: the keyword fallback classifies in priority order
risk/exposure/concentration, then earnings/surprise/report, then
news/headline/update, then stock/price/market, else portfolio, with the
corresponding tool lists; "asia" adds region "Asia" and "tech" adds sector
"Technology"; and on "Show me risk exposure in Asia tech stocks" it yields
risk_exposure with regions ["Asia"] and sectors ["Technology"]. -/
theorem C4_fallback_classification (q : String) :
    (containsAny (lowerStr q) ["risk", "exposure", "concentration"] = true →
      (fallbackClassify q).intent = "risk_exposure" ∧
      (fallbackClassify q).tools = ["portfolio", "risk", "stock"]) ∧
    (containsAny (lowerStr q) ["risk", "exposure", "concentration"] = false →
      containsAny (lowerStr q) ["earnings", "surprise", "report"] = true →
      (fallbackClassify q).intent = "earnings_surprise" ∧
      (fallbackClassify q).tools = ["earnings", "stock"]) ∧
    (containsAny (lowerStr q) ["risk", "exposure", "concentration"] = false →
      containsAny (lowerStr q) ["earnings", "surprise", "report"] = false →
      containsAny (lowerStr q) ["news", "headline", "update"] = true →
      (fallbackClassify q).intent = "news" ∧ (fallbackClassify q).tools = ["news"]) ∧
    (containsAny (lowerStr q) ["risk", "exposure", "concentration"] = false →
      containsAny (lowerStr q) ["earnings", "surprise", "report"] = false →
      containsAny (lowerStr q) ["news", "headline", "update"] = false →
      containsAny (lowerStr q) ["stock", "price", "market"] = true →
      (fallbackClassify q).intent = "stock" ∧ (fallbackClassify q).tools = ["stock"]) ∧
    (containsAny (lowerStr q) ["risk", "exposure", "concentration"] = false →
      containsAny (lowerStr q) ["earnings", "surprise", "report"] = false →
      containsAny (lowerStr q) ["news", "headline", "update"] = false →
      containsAny (lowerStr q) ["stock", "price", "market"] = false →
      (fallbackClassify q).intent = "portfolio" ∧
      (fallbackClassify q).tools = ["portfolio"]) ∧
    (strContains (lowerStr q) "asia" = true →
      (fallbackClassify q).filters.regions = ["Asia"]) ∧
    (strContains (lowerStr q) "asia" = false →
      (fallbackClassify q).filters.regions = []) ∧
    (strContains (lowerStr q) "tech" = true →
      (fallbackClassify q).filters.sectors = ["Technology"]) ∧
    (strContains (lowerStr q) "tech" = false →
      (fallbackClassify q).filters.sectors = []) ∧
    (fallbackClassify q).filters.symbols = [] ∧
    (fallbackClassify q).time_period = "latest" ∧
    fallbackClassify "Show me risk exposure in Asia tech stocks" =
      ⟨"risk_exposure", ["portfolio", "risk", "stock"], ⟨["Asia"], ["Technology"], []⟩,
        "latest", ["price", "change"]⟩ := by
  refine ⟨?_, ?_, ?_, ?_, ?_, ?_, ?_, ?_, ?_, ?_, ?_, ?_⟩
  · intro h1
    simp [fallbackClassify, h1]
  · intro h1 h2
    simp [fallbackClassify, h1, h2]
  · intro h1 h2 h3
    simp [fallbackClassify, h1, h2, h3]
  · intro h1 h2 h3 h4
    simp [fallbackClassify, h1, h2, h3, h4]
  · intro h1 h2 h3 h4
    simp [fallbackClassify, h1, h2, h3, h4]
  · intro h1
    simp [fallbackClassify, h1]
  · intro h1
    simp [fallbackClassify, h1]
  · intro h1
    simp [fallbackClassify, h1]
  · intro h1
    simp [fallbackClassify, h1]
  · simp [fallbackClassify]
  · simp [fallbackClassify]
  · decide

/-- C4 witness: the classification of the concrete query through the
general branch properties. -/
theorem C4_witness :
    (fallbackClassify "Show me risk exposure in Asia tech stocks").intent =
      "risk_exposure" ∧
    (fallbackClassify "Show me risk exposure in Asia tech stocks").filters.regions =
      ["Asia"] ∧
    (fallbackClassify "Show me risk exposure in Asia tech stocks").filters.sectors =
      ["Technology"] :=
  ⟨((C4_fallback_classification "Show me risk exposure in Asia tech stocks").1
      (by decide)).1,
   (C4_fallback_classification "Show me risk exposure in Asia tech stocks").2.2.2.2.2.1
      (by decide),
   (C4_fallback_classification
      "Show me risk exposure in Asia tech stocks").2.2.2.2.2.2.2.1 (by decide)⟩

/-- C7: whenever the query-understanding language-model call raises, the
outer handler returns the fixed default analysis
portfolio / [portfolio, stock] / empty filters / latest / [price, change]. -/
theorem C7_understand_error_default (q : String) :
    understandQuery (Except.error ()) q = defaultAnalysis ∧
    defaultAnalysis =
      ⟨"portfolio", ["portfolio", "stock"], ⟨[], [], []⟩, "latest", ["price", "change"]⟩ :=
  ⟨rfl, rfl⟩

/-- The high-risk accumulation is the filter of the payloads that carry
historical closes and pass the high-risk test, keyed by symbol. -/
theorem highRiskStocks_spec (stockData : List (String × StockPayload)) :
    highRiskStocks stockData =
      (stockData.filter (fun p =>
        match p.2.historical with
        | some closes => highRisk closes
        | none => false)).map Prod.fst := by
  have aux : ∀ (l : List (String × StockPayload)) (acc : List String),
      l.foldl (fun acc p =>
        match p.2.historical with
        | some closes => if highRisk closes then acc ++ [p.1] else acc
        | none => acc) acc =
      acc ++ (l.filter (fun p =>
        match p.2.historical with
        | some closes => highRisk closes
        | none => false)).map Prod.fst := by
    intro l
    induction l with
    | nil => intro acc; simp
    | cons p t ih =>
        intro acc
        simp only [List.foldl_cons, List.filter_cons]
        rcases hh : p.2.historical with _ | cs
        · simp only [hh, Bool.false_eq_true, if_false]
          rw [ih]
        · simp only [hh]
          by_cases hr : highRisk cs
          · simp only [hr, if_true, if_pos, List.map_cons]
            rw [ih]
            simp
          · simp only [hr, Bool.false_eq_true, if_false]
            rw [ih]
  unfold highRiskStocks
  rw [aux]
  rfl

/-- C5: a symbol with at least two closes (and nonzero previous closes) is
classified high-risk exactly when the population variance of its daily
simple returns times 252 exceeds 0.09 — the squared form of
std(returns)·√252 > 0.3 — a symbol with fewer than two closes is always
skipped, membership in high_risk_stocks is exactly the per-symbol test,
and for closes [100, 105, 98, 102] the daily returns are the exact
rationals [1/20, -1/15, 2/49] (≈ [0.05, -0.0667, 0.0408]) and the symbol
exceeds the threshold. -/
theorem C5_volatility_classification (closes : List ℚ)
    (stockData : List (String × StockPayload)) (sym : String) :
    (closes.length < 2 → highRisk closes = false) ∧
    (1 < closes.length → closes.dropLast.all (fun c => c != 0) = true →
      (highRisk closes = true ↔ listVariance (dailyReturns closes) * 252 > 9 / 100)) ∧
    (sym ∈ highRiskStocks stockData ↔
      ∃ p ∈ stockData, p.1 = sym ∧
        ∃ cs, p.2.historical = some cs ∧ highRisk cs = true) ∧
    dailyReturns [100, 105, 98, 102] = [1 / 20, -1 / 15, 2 / 49] ∧
    highRisk [100, 105, 98, 102] = true := by
  refine ⟨?_, ?_, ?_, ?_, ?_⟩
  · intro h
    have h1 : ¬(1 < closes.length) := by omega
    simp [highRisk, h1]
  · intro h1 h2
    simp [highRisk, h1, h2]
  · rw [highRiskStocks_spec]
    simp only [List.mem_map, List.mem_filter]
    constructor
    · rintro ⟨p, ⟨hp, hg⟩, he⟩
      refine ⟨p, hp, he, ?_⟩
      rcases hh : p.2.historical with _ | cs
      · rw [hh] at hg
        simp at hg
      · rw [hh] at hg
        exact ⟨cs, rfl, hg⟩
    · rintro ⟨p, hp, he, cs, hcs, hr⟩
      refine ⟨p, ⟨hp, ?_⟩, he⟩
      rw [hcs]
      exact hr
  · norm_num [dailyReturns]
  · have h1 : (1 : ℕ) < ([100, 105, 98, 102] : List ℚ).length := by norm_num
    have h2 : ([100, 105, 98, 102] : List ℚ).dropLast.all (fun c => c != 0) = true := by
      decide
    have h3 : listVariance (dailyReturns [100, 105, 98, 102]) * 252 > 9 / 100 := by
      norm_num [dailyReturns, listVariance, listMean]
    simp [highRisk, h1, h2, h3]

/-- C5 witness: a single-close symbol is skipped, and the concrete
four-close series is decided by the variance threshold. -/
theorem C5_witness :
    highRisk [(100 : ℚ)] = false ∧
    (highRisk [100, 105, 98, 102] = true ↔
      listVariance (dailyReturns [100, 105, 98, 102]) * 252 > 9 / 100) :=
  ⟨(C5_volatility_classification [(100 : ℚ)] [] "X").1 (by norm_num),
   (C5_volatility_classification [100, 105, 98, 102] [] "X").2.1 (by norm_num)
      (by decide)⟩

/-! ## Fetch-failure lemmas and process fixtures -/

theorem getStockData_all_fail (fetch : String → ToolResult StockPayload)
    (symbols : List String) (h : ∀ t ∈ symbols, (fetch t).success = false) :
    getStockData fetch symbols = [] := by
  have aux : ∀ (l : List String) (acc : List (String × StockPayload)),
      (∀ t ∈ l, (fetch t).success = false) →
      l.foldl (fun results s =>
        match fetch s with
        | ⟨true, some d, _⟩ => setKey results s d
        | _ => results) acc = acc := by
    intro l
    induction l with
    | nil => intro acc _; rfl
    | cons a t ih =>
        intro acc hl
        have ha := hl a (List.mem_cons_self a t)
        simp only [List.foldl_cons]
        have hstep : (match fetch a with
            | ⟨true, some d, _⟩ => setKey acc a d
            | _ => acc) = acc := by
          rcases hfa : fetch a with ⟨su, da, er⟩
          rw [hfa] at ha
          cases su
          · rfl
          · simp at ha
        rw [hstep]
        exact ih acc (fun t ht => hl t (List.mem_cons_of_mem a ht))
  exact aux symbols [] h

theorem envFold_all_fail (fetch : String → ToolResult String) :
    ∀ (l : List String) (acc : List (String × Option String)),
      (∀ t ∈ l, (fetch t).success = false) →
      l.foldl (fun results s =>
        let r := fetch s
        if r.success then setKey results s r.data else results) acc = acc := by
  intro l
  induction l with
  | nil => intro acc _; rfl
  | cons a t ih =>
      intro acc hl
      have ha := hl a (List.mem_cons_self a t)
      simp only [List.foldl_cons, ha, Bool.false_eq_true, if_false]
      exact ih acc (fun t ht => hl t (List.mem_cons_of_mem a ht))

theorem getEarningsData_all_fail (fetch : String → ToolResult String)
    (symbols : List String) (h : ∀ t ∈ symbols, (fetch t).success = false) :
    getEarningsData fetch symbols = [] := by
  unfold getEarningsData
  exact envFold_all_fail fetch symbols [] h

theorem getNews_all_fail (fetch : String → ToolResult String)
    (symbols : List String) (h : ∀ t ∈ symbols, (fetch t).success = false) :
    getNews fetch symbols = [] := by
  unfold getNews
  exact envFold_all_fail fetch symbols [] h

theorem getMetadata_all_fail (fetch : String → ToolResult String)
    (symbols : List String) (h : ∀ t ∈ symbols, (fetch t).success = false) :
    getMetadata fetch symbols = [] := by
  unfold getMetadata
  exact envFold_all_fail fetch symbols [] h

theorem getStockData_skip_failed (fetch : String → ToolResult StockPayload)
    (xs ys : List String) (s : String) (h : (fetch s).success = false) :
    getStockData fetch (xs ++ s :: ys) = getStockData fetch (xs ++ ys) := by
  unfold getStockData
  rw [List.foldl_append, List.foldl_append, List.foldl_cons]
  have hstep : ∀ acc : List (String × StockPayload),
      (match fetch s with
      | ⟨true, some d, _⟩ => setKey acc s d
      | _ => acc) = acc := by
    intro acc
    rcases hfa : fetch s with ⟨su, da, er⟩
    rw [hfa] at h
    cases su
    · rfl
    · simp at h
  rw [hstep]

/-- An always-failing provider envelope (string payload). -/
def failTool : ToolResult String := ⟨false, none, some "provider down"⟩

/-- An always-failing provider envelope (stock payload). -/
def failStock : ToolResult StockPayload := ⟨false, none, some "provider down"⟩

/-- Oracles with a raising understanding call, an empty portfolio and
failing providers. -/
def oracleEmpty : Oracles :=
  ⟨Except.error (), agentProcess [], fun _ => failStock, fun _ => failTool,
    fun _ => failTool, fun _ => "analysis text"⟩

/-- Oracles with a raising understanding call, the one-holding portfolio
and failing providers. -/
def oracleAllFail : Oracles :=
  ⟨Except.error (), agentProcess [holdingAAPL], fun _ => failStock, fun _ => failTool,
    fun _ => failTool, fun _ => "all providers failed analysis"⟩

theorem getPortfolioData_AAPL :
    getPortfolioData (agentProcess [holdingAAPL]) = Except.ok snapAgent := by
  unfold getPortfolioData
  rw [agentSuccess_AAPL]
  have hsym : (agentProcess [holdingAAPL]).data.symbols = ["AAPL"] := by
    rw [show (agentProcess [holdingAAPL]).data = snapAgent from rfl, snapAgent_eq]
    rfl
  simp [hsym]
  rfl

theorem chosenSymbols_default_AAPL :
    chosenSymbols defaultAnalysis snapAgent = ["AAPL"] := by
  unfold chosenSymbols
  rw [show defaultAnalysis.filters = Filters.empty from rfl,
    filterPortfolioData_snapAgent_empty]
  rfl

/-- C8: the claim says that a successful portfolio retrieval with no
holdings yields an explicit "no data" final textual message.  False: the
orchestrator turns the empty (successful) portfolio envelope into the bare
error dict {"error": "No portfolio data available"} — no final_result key,
no success key. -/
theorem C8_counterexample :
    (agentProcess []).success = true ∧
    (agentProcess []).data.holdings = [] ∧
    SmartOrchestrator.process oracleEmpty "What is my portfolio?" =
      ⟨none, some "No portfolio data available", none, none⟩ ∧
    (SmartOrchestrator.process oracleEmpty "What is my portfolio?").final_result =
      none := ⟨rfl, rfl, rfl, rfl⟩

/-- C8 (amended): for every query, when the portfolio agent reports
success but its data carries no symbols, process returns the error-only
result {"error": "No portfolio data available"} — an error result without
final text, not a "no data" final message. -/
theorem C8_empty_portfolio_error (o : Oracles) (q : String)
    (hs : o.agent.success = true) (hsym : o.agent.data.symbols = []) :
    SmartOrchestrator.process o q =
      ⟨none, some "No portfolio data available", none, none⟩ := by
  have hpd : getPortfolioData o.agent = Except.error "No portfolio data available" := by
    unfold getPortfolioData
    rw [hs]
    simp [hsym]
  unfold SmartOrchestrator.process
  rw [hpd]

/-- C8 witness: the empty-portfolio oracles at a concrete query. -/
theorem C8_witness :
    SmartOrchestrator.process oracleEmpty "show holdings" =
      ⟨none, some "No portfolio data available", none, none⟩ :=
  C8_empty_portfolio_error oracleEmpty "show holdings" rfl rfl

/-- C6: a symbol whose adapter call fails is omitted from the aggregate
rather than aborting the fetch; when every symbol fails the aggregate for
that tool (stock, earnings, news, metadata) is the empty mapping; and the
overall process call still returns success with a final textual result and
an empty stock aggregate inside its data. -/
theorem C6_per_symbol_failures (fetchS : String → ToolResult StockPayload)
    (fetchE fetchN fetchM : String → ToolResult String)
    (symbols xs ys : List String) (s : String) (o : Oracles) (q : String)
    (pd : Snapshot) :
    ((∀ t ∈ symbols, (fetchS t).success = false) →
      getStockData fetchS symbols = []) ∧
    ((∀ t ∈ symbols, (fetchE t).success = false) →
      getEarningsData fetchE symbols = []) ∧
    ((∀ t ∈ symbols, (fetchN t).success = false) →
      getNews fetchN symbols = []) ∧
    ((∀ t ∈ symbols, (fetchM t).success = false) →
      getMetadata fetchM symbols = []) ∧
    ((fetchS s).success = false →
      getStockData fetchS (xs ++ s :: ys) = getStockData fetchS (xs ++ ys)) ∧
    (getPortfolioData o.agent = Except.ok pd →
      chosenSymbols (understandQuery o.llm q) pd ≠ [] →
      validIntents.contains (understandQuery o.llm q).intent = true →
      (SmartOrchestrator.process o q).success = some true ∧
      (∃ t, (SmartOrchestrator.process o q).final_result = some t) ∧
      ((understandQuery o.llm q).tools.contains "stock" = true →
        (∀ t, (o.stockFetch t).success = false) →
        ∃ d, (SmartOrchestrator.process o q).data = some d ∧ d.stock = some [])) := by
  refine ⟨getStockData_all_fail fetchS symbols,
    getEarningsData_all_fail fetchE symbols, getNews_all_fail fetchN symbols,
    getMetadata_all_fail fetchM symbols, getStockData_skip_failed fetchS xs ys s, ?_⟩
  intro hpd hne hint
  have hemp : ¬((chosenSymbols (understandQuery o.llm q) pd).isEmpty = true) := by
    rw [List.isEmpty_iff]
    exact hne
  unfold SmartOrchestrator.process
  rw [hpd]
  simp only [hemp, if_false, hint, if_true, if_pos]
  refine ⟨rfl, ⟨_, rfl⟩, ?_⟩
  intro htool hfail
  simp only [htool, if_true, if_pos]
  exact ⟨_, rfl,
    by rw [getStockData_all_fail o.stockFetch _ (fun t _ => hfail t)]⟩

/-- C6 witness: with the one-holding portfolio, a raising understanding
call (default analysis requests the stock tool) and every stock fetch
failing, process succeeds with a final text and an empty stock mapping. -/
theorem C6_witness :
    (SmartOrchestrator.process oracleAllFail "hello").success = some true ∧
    (∃ t, (SmartOrchestrator.process oracleAllFail "hello").final_result = some t) ∧
    (∃ d, (SmartOrchestrator.process oracleAllFail "hello").data = some d ∧
      d.stock = some []) := by
  have h6 := (C6_per_symbol_failures (fun _ => failStock) (fun _ => failTool)
    (fun _ => failTool) (fun _ => failTool) [] [] [] "X" oracleAllFail "hello"
    snapAgent).2.2.2.2.2
  have hne : chosenSymbols (understandQuery oracleAllFail.llm "hello") snapAgent ≠ [] := by
    rw [show understandQuery oracleAllFail.llm "hello" = defaultAnalysis from rfl,
      chosenSymbols_default_AAPL]
    simp
  have h := h6 getPortfolioData_AAPL hne rfl
  exact ⟨h.1, h.2.1, h.2.2 rfl (fun t => rfl)⟩

/-- C9: the orchestrator's result cache is allocated empty with a one-hour
TTL and is neither read (the result of process is independent of the cache
contents) nor written (the state passes through unchanged), so repeating
an identical query recomputes the same result instead of returning a
memoized one. -/
theorem C9_cache_never_used (st st2 : CacheState) (o : Oracles) (q : String) :
    initCacheState.cache = [] ∧ initCacheState.ttl = 3600 ∧
    (processWithState st o q).2 = st ∧
    (processWithState st o q).1 = (processWithState st2 o q).1 ∧
    (processWithState ((processWithState initCacheState o q).2) o q).1 =
      (processWithState initCacheState o q).1 :=
  ⟨rfl, rfl, rfl, rfl, rfl⟩

end FinanceBriefer
